import Mathlib

/-!
Shallow embedding of the Criminal Appeal Case Management backend
(`app.py`): the relational data model (Case, Document, TimelineEvent,
LegalAnalysis, BarristerReport), the date-parsing helper, and the request
handlers the verification targets, together with theorems about them.

Third-party library calls (`datetime.fromisoformat`, `datetime.strptime`,
`werkzeug.secure_filename`, text extraction, `os.path.getsize`, file-system
effects of `os.remove` / `file.save`) are modelled as explicit parameters or
as an explicit file-system state (a list of on-disk paths), so that every
handler is a pure state transformer.
-/

/-- Python `datetime` value as produced by the parsing helpers: calendar
fields plus an optional fixed UTC offset in minutes (`none` = naive). -/
structure PyDateTime where
  year : Nat
  month : Nat
  day : Nat
  hour : Nat
  minute : Nat
  second : Nat
  microsecond : Nat
  tzoffsetMinutes : Option Int
  deriving DecidableEq, Repr

/-- Row of the `cases` table (`class Case`, app.py). -/
structure Case where
  id : Nat
  case_number : String
  defendant_name : String
  offense_type : String
  court : String
  status : String
  created_at : PyDateTime
  updated_at : PyDateTime
  deriving DecidableEq, Repr

/-- Row of the `documents` table (`class Document`, app.py). -/
structure Document where
  id : Nat
  case_id : Nat
  title : String
  document_type : String
  file_path : String
  file_type : String
  file_size : Nat
  extracted_text : Option String
  upload_date : PyDateTime
  deriving DecidableEq, Repr

/-- Row of the `timeline_events` table (`class TimelineEvent`, app.py).
The `document_id` foreign key is nullable (`ondelete='SET NULL'`). -/
structure TimelineEvent where
  id : Nat
  case_id : Nat
  document_id : Option Nat
  event_date : PyDateTime
  event_type : String
  description : String
  significance : String
  relevance_to_appeal : Option String
  created_at : PyDateTime
  deriving DecidableEq, Repr

/-- Row of the `legal_analyses` table (`class LegalAnalysis`, app.py). -/
structure LegalAnalysis where
  id : Nat
  case_id : Nat
  ground_of_merit : String
  legal_basis : String
  strength_assessment : String
  nsw_law_references : Option String
  federal_law_references : Option String
  supporting_evidence : Option String
  analysis_summary : String
  created_at : PyDateTime
  updated_at : PyDateTime
  deriving DecidableEq, Repr

/-- Row of the `barrister_reports` table (`class BarristerReport`, app.py). -/
structure BarristerReport where
  id : Nat
  case_id : Nat
  report_title : String
  executive_summary : String
  grounds_identified : String
  legal_analysis_summary : String
  recommendations : String
  generated_at : PyDateTime
  generated_by : String
  deriving DecidableEq, Repr

/-- Whole database state: one list per table. -/
structure DB where
  cases : List Case
  documents : List Document
  timeline_events : List TimelineEvent
  legal_analyses : List LegalAnalysis
  barrister_reports : List BarristerReport
  deriving DecidableEq, Repr

/-- Python `date_string.endswith('Z')`: the last character is `'Z'`. -/
def endsWithZ (s : String) : Bool := s.data.getLast? == some 'Z'

/-- Python `date_string[:-1]`: drop the last character. -/
def stripLast (s : String) : String := ⟨s.data.dropLast⟩

/-- Substring test: `sub` occurs contiguously inside `s` (used to state
that an error message echoes a submitted value). -/
def strContains (s sub : String) : Bool :=
  (List.range (s.data.length + 1)).any
    (fun i => (s.data.drop i).take sub.data.length == sub.data)

/-- Rebinding of `date_string` done by `parse_datetime` (app.py lines
263-264): a trailing `'Z'` is replaced by an explicit `'+00:00'` offset. -/
def zNormalize (s : String) : String :=
  if endsWithZ s then stripLast s ++ "+00:00" else s

/-- Embedding of `parse_datetime` (app.py lines 245-276).  The library
parsers `datetime.fromisoformat` and `datetime.strptime` are passed in as
parameters `fromiso` and `strp` (`strp fmt s` tries format `fmt`); each
returns `none` exactly when the library raises `ValueError`.  Note that the
Python code rebinds `date_string` when it ends in `'Z'`, so the fallback
formats and the error message all use the rewritten string. -/
def parse_datetime (fromiso : String → Option PyDateTime)
    (strp : String → String → Option PyDateTime)
    (date_string : String) : Except String PyDateTime :=
  if date_string == "" then
    .error "Date string cannot be empty"
  else
    let ds := zNormalize date_string
    match fromiso ds with
    | some d => .ok d
    | none =>
      match strp "%Y-%m-%dT%H:%M:%S" ds with
      | some d => .ok d
      | none =>
        match strp "%Y-%m-%d %H:%M:%S" ds with
        | some d => .ok d
        | none =>
          match strp "%Y-%m-%d" ds with
          | some d => .ok d
          | none =>
            .error ("Unable to parse date string: " ++ ds ++
              ". Use ISO 8601 format (e.g., \x272024-01-01T12:00:00\x27 or \x272024-01-01T12:00:00Z\x27)")

/-- Allowed upload extensions (`app.config` value `ALLOWED_EXTENSIONS`). -/
def ALLOWED_EXTENSIONS : List String := ["pdf", "docx", "txt"]

/-- Python `filename.rsplit` on a dot keeping the last piece, then
`.lower()`: the characters after the last dot, lowered. -/
def lowerExt (filename : String) : String :=
  ⟨((filename.data.reverse.takeWhile (fun c => !(c == '.'))).reverse).map Char.toLower⟩

/-- Embedding of `allowed_file` (app.py lines 279-290): the filename holds a
dot and the lowered text after the last dot is in the allow-list. -/
def allowed_file (filename : String) : Bool :=
  filename.data.contains '.' && ALLOWED_EXTENSIONS.contains (lowerExt filename)

/-- Python truthiness fallback `value or 'N/A'` used for the optional
reference fields: `None` and the empty string both fall back. -/
def orNA (o : Option String) : String :=
  match o with
  | none => "N/A"
  | some s => if s == "" then "N/A" else s

/-- Grounds-identified section of a report (app.py lines 1414-1417):
one numbered line per analysis, joined by newlines. -/
def groundsIdentified (analyses : List LegalAnalysis) : String :=
  String.intercalate "\n"
    ((List.enumFrom 1 analyses).map
      (fun p => toString p.1 ++ ". " ++ p.2.ground_of_merit ++
        " (Strength: " ++ p.2.strength_assessment ++ ")"))

/-- Legal-analysis-summary section of a report (app.py lines 1420-1437):
one block per analysis, joined by a dashed separator. -/
def legalAnalysisSummary (analyses : List LegalAnalysis) : String :=
  String.intercalate "\n---\n"
    ((List.enumFrom 1 analyses).map
      (fun p =>
        "\nGround " ++ toString p.1 ++ ": " ++ p.2.ground_of_merit ++
        "\n\nLegal Basis: " ++ p.2.legal_basis ++
        "\n\nStrength Assessment: " ++ p.2.strength_assessment ++
        "\n\nNSW Law References: " ++ orNA p.2.nsw_law_references ++
        "\n\nFederal Law References: " ++ orNA p.2.federal_law_references ++
        "\n\nSupporting Evidence: " ++ orNA p.2.supporting_evidence ++ "\n"))

/-- Strong-grounds recommendation paragraph (app.py lines 1444-1453);
`n` is the number of analyses assessed `Strong`. -/
def strongRecText (n : Nat) : String :=
  "Based on the analysis, there are " ++ toString n ++ " strong ground(s) of appeal identified. \n" ++
  "It is recommended to proceed with the appeal, focusing primarily on these strong grounds. \n" ++
  "The case presents reasonable prospects of success. Immediate steps should include:\n\n" ++
  "1. Prepare detailed written submissions on the strong grounds\n" ++
  "2. Compile all supporting documentary evidence\n" ++
  "3. Engage expert witnesses where necessary\n" ++
  "4. Consider application for leave to appeal if required\n\n" ++
  "The " ++ toString n ++ " strong ground(s) provide a solid foundation for appellate review."

/-- Medium-grounds recommendation paragraph (app.py lines 1455-1464);
`n` is the number of analyses assessed `Medium`. -/
def mediumRecText (n : Nat) : String :=
  "The analysis has identified " ++ toString n ++ " medium strength ground(s) of appeal. \n" ++
  "While these grounds have merit, further investigation and evidence gathering is recommended \n" ++
  "to strengthen the appeal prospects before proceeding. Recommended next steps:\n\n" ++
  "1. Conduct additional factual investigation\n" ++
  "2. Obtain expert opinions to strengthen the grounds\n" ++
  "3. Research recent comparable case law\n" ++
  "4. Review all trial transcripts for additional grounds\n\n" ++
  "With additional work, these grounds could be strengthened to support a viable appeal."

/-- Default weak-grounds recommendation paragraph (app.py lines 1466-1474). -/
def weakRecText : String :=
  "The current analysis shows primarily weak grounds of appeal. \n" ++
  "It is recommended to:\n\n" ++
  "1. Seek additional evidence or explore alternative legal strategies\n" ++
  "2. Consider a comprehensive review of the entire trial record\n" ++
  "3. Engage specialist appellate counsel for second opinion\n" ++
  "4. Explore other post-conviction remedies if available\n\n" ++
  "Before proceeding with a formal appeal, further groundwork is necessary."

/-- Recommendation selection (app.py lines 1439-1474): filter the Strong
analyses and the Medium analyses; a non-empty Strong list selects the
strong paragraph, else a non-empty Medium list the medium paragraph, else
the default weak paragraph. -/
def recommendations (analyses : List LegalAnalysis) : String :=
  let strong_grounds := analyses.filter (fun a => a.strength_assessment == "Strong")
  let medium_grounds := analyses.filter (fun a => a.strength_assessment == "Medium")
  if !strong_grounds.isEmpty then strongRecText strong_grounds.length
  else if !medium_grounds.isEmpty then mediumRecText medium_grounds.length
  else weakRecText

/-- Embedding of the handler `create_barrister_report`
(`POST /api/cases/{id}/reports`, app.py lines 1383-1500).  `nowStr` is the
formatted generation date `datetime.utcnow().strftime` and `now` the
generation timestamp; `nextReportId` models the autoincrement key.  Returns
the HTTP status and the database after the request. -/
def create_barrister_report (db : DB) (nextReportId : Nat) (nowStr : String)
    (now : PyDateTime) (case_id : Nat) : Nat × DB :=
  match db.cases.find? (fun c => c.id == case_id) with
  | none => (404, db)
  | some case =>
    let analyses := db.legal_analyses.filter (fun a => a.case_id == case_id)
    if analyses.isEmpty then (400, db)
    else
      let report : BarristerReport :=
        { id := nextReportId
          case_id := case_id
          report_title := "Legal Opinion - Appeal Prospects: " ++ case.defendant_name ++
            " - Case " ++ case.case_number
          executive_summary :=
            "This report provides a comprehensive legal analysis of the appeal prospects for " ++
            case.defendant_name ++ " \nin relation to the " ++ case.offense_type ++
            " conviction. The analysis is based on review of all available case documents, \n" ++
            "evidence, and applicable NSW and Federal legislation. The analysis was conducted on " ++
            nowStr ++ "."
          grounds_identified := groundsIdentified analyses
          legal_analysis_summary := legalAnalysisSummary analyses
          recommendations := recommendations analyses
          generated_at := now
          generated_by := "AI Legal Analysis System" }
      (201, { db with barrister_reports := db.barrister_reports ++ [report] })

/-- JSON body of a create-case request: each field may be absent. -/
structure CaseInput where
  case_number : Option String
  defendant_name : Option String
  offense_type : Option String
  court : Option String
  status : Option String
  deriving DecidableEq, Repr

/-- Embedding of the handler `create_case` (`POST /api/cases`, app.py lines
518-577).  `input = none` models a missing/empty JSON body; required fields
are checked in the source order (`case_number`, then `defendant_name`),
then a duplicate `case_number` is rejected with 409 before any insert. -/
def create_case (db : DB) (nextCaseId : Nat) (now : PyDateTime)
    (input : Option CaseInput) : Nat × DB :=
  match input with
  | none => (400, db)
  | some data =>
    match data.case_number with
    | none => (400, db)
    | some cn =>
      match data.defendant_name with
      | none => (400, db)
      | some dn =>
        if (db.cases.find? (fun c => c.case_number == cn)).isSome then (409, db)
        else
          let newCase : Case :=
            { id := nextCaseId
              case_number := cn
              defendant_name := dn
              offense_type := data.offense_type.getD "Murder"
              court := data.court.getD "NSW Supreme Court"
              status := data.status.getD "Open"
              created_at := now
              updated_at := now }
          (201, { db with cases := db.cases ++ [newCase] })

/-- One entry of the `sample_grounds` table in `analyze_grounds_of_merit`. -/
structure GroundData where
  ground : String
  legal_basis : String
  strength : String
  nsw_refs : String
  federal_refs : String
  evidence : String
  summary : String
  deriving DecidableEq, Repr

/-- Fixed placeholder grounds list (app.py lines 459-487). -/
def sample_grounds : List GroundData :=
  [ { ground := "Error in Law - Judicial Misdirection"
      legal_basis := "The trial judge misdirected the jury on a material element of the offense, leading to a miscarriage of justice."
      strength := "Strong"
      nsw_refs := "Criminal Appeal Act 1912 (NSW) s 6(1); Crimes (Appeal and Review) Act 2001 (NSW) s 53"
      federal_refs := "None applicable"
      evidence := "Trial transcript pages 45-48 showing erroneous jury directions"
      summary := "Strong ground based on clear judicial error in directing the jury on the element of intent. NSW Court of Criminal Appeal has consistently held that such misdirections constitute a material irregularity." },
    { ground := "Fresh Evidence"
      legal_basis := "New evidence has come to light that was not available at trial and could reasonably affect the outcome."
      strength := "Medium"
      nsw_refs := "Criminal Appeal Act 1912 (NSW) s 12; Crimes (Appeal and Review) Act 2001 (NSW) s 54"
      federal_refs := "Evidence Act 1995 (Cth) s 97, s 101"
      evidence := "Witness statement dated after trial conclusion; forensic analysis report"
      summary := "Medium strength ground. The fresh evidence meets the threshold of credibility but requires demonstration that it could not have been discovered with reasonable diligence at trial." },
    { ground := "Unreasonable Verdict"
      legal_basis := "The verdict is unreasonable or cannot be supported having regard to the evidence presented at trial."
      strength := "Medium"
      nsw_refs := "Criminal Appeal Act 1912 (NSW) s 6(1); Crimes (Appeal and Review) Act 2001 (NSW) s 53(1)(a)"
      federal_refs := "None applicable"
      evidence := "Contradictory witness testimony; lack of corroborating evidence"
      summary := "Medium strength ground. Requires detailed analysis of the trial record to demonstrate that no reasonable jury, properly instructed, could have reached the guilty verdict on the evidence presented." } ]

/-- Embedding of `analyze_grounds_of_merit` (app.py lines 437-511): build
one `LegalAnalysis` row per entry of the fixed `sample_grounds` table,
attached to `case.id`.  `nextAnalysisId` and `now` model the autoincrement
keys and the row timestamps; the function never reads the database, in
particular not the case documents. -/
def analyze_grounds_of_merit (case : Case) (nextAnalysisId : Nat)
    (now : PyDateTime) : List LegalAnalysis :=
  sample_grounds.enum.map
    (fun p =>
      { id := nextAnalysisId + p.1
        case_id := case.id
        ground_of_merit := p.2.ground
        legal_basis := p.2.legal_basis
        strength_assessment := p.2.strength
        nsw_law_references := some p.2.nsw_refs
        federal_law_references := some p.2.federal_refs
        supporting_evidence := some p.2.evidence
        analysis_summary := p.2.summary
        created_at := now
        updated_at := now })

/-- Embedding of the handler `analyze_case`
(`POST /api/cases/{id}/analyze`, app.py lines 1204-1231): look up the case,
run `analyze_grounds_of_merit` and commit the produced rows; an empty
result list would be reported as a 500. -/
def analyze_case (db : DB) (nextAnalysisId : Nat) (now : PyDateTime)
    (case_id : Nat) : Nat × DB :=
  match db.cases.find? (fun c => c.id == case_id) with
  | none => (404, db)
  | some case =>
    let analyses := analyze_grounds_of_merit case nextAnalysisId now
    if analyses.isEmpty then (500, db)
    else (201, { db with legal_analyses := db.legal_analyses ++ analyses })

/-- Embedding of the handler `delete_case`
(`DELETE /api/cases/{id}`, app.py lines 700-740).  The on-disk state is the
list `fs` of existing file paths; `removable p` tells whether `os.remove p`
succeeds (a failure is only logged).  Deleting the case cascades to every
dependent row (`cascade='all, delete-orphan'` on all four relationships of
`Case`). -/
def delete_case (db : DB) (fs : List String) (removable : String → Bool)
    (case_id : Nat) : Nat × DB × List String :=
  match db.cases.find? (fun c => c.id == case_id) with
  | none => (404, db, fs)
  | some _ =>
    let docs := db.documents.filter (fun d => d.case_id == case_id)
    let fs2 := fs.filter (fun p => !(docs.any (fun d => d.file_path == p) && removable p))
    (200,
      { cases := db.cases.filter (fun c => !(c.id == case_id))
        documents := db.documents.filter (fun d => !(d.case_id == case_id))
        timeline_events := db.timeline_events.filter (fun e => !(e.case_id == case_id))
        legal_analyses := db.legal_analyses.filter (fun a => !(a.case_id == case_id))
        barrister_reports := db.barrister_reports.filter (fun r => !(r.case_id == case_id)) },
      fs2)

/-- Multipart form of a document-upload request: whether a `file` part is
present, its client-side filename, and the form fields. -/
structure UploadRequest where
  hasFile : Bool
  filename : String
  title : Option String
  document_type : Option String
  deriving DecidableEq, Repr

/-- Timeline event auto-created after a successful upload
(`auto_create_timeline_event`, app.py lines 405-434). -/
def auto_create_timeline_event (nextEventId : Nat) (now : PyDateTime)
    (document : Document) : TimelineEvent :=
  { id := nextEventId
    case_id := document.case_id
    document_id := some document.id
    event_date := document.upload_date
    event_type := "Document Upload"
    description := "Document \x27" ++ document.title ++ "\x27 (" ++
      document.document_type ++ ") was uploaded to the case"
    significance := "Medium"
    relevance_to_appeal := some ("This " ++ document.document_type ++
      " may contain relevant information for the appeal")
    created_at := now }

/-- Embedding of the handler `upload_document`
(`POST /api/cases/{id}/documents`, app.py lines 747-836).  `fs` is the list
of on-disk paths; `secure` models `werkzeug.secure_filename`; `extract`
models `extract_text_from_file` (path, lowered extension); `sizeOf` models
`os.path.getsize`; `timestamp` is the `%Y%m%d_%H%M%S`-formatted upload
instant and `uploadFolder` the configured upload root.  Validation follows
the source order: case lookup, file part present, non-empty filename,
`allowed_file`, title present, sanitised filename still carries an
extension; only then is the file saved (the path joins use a slash).  The
result is the HTTP status, the database and the file system after the
request. -/
def upload_document (db : DB) (fs : List String) (secure : String → String)
    (extract : String → String → String) (sizeOf : String → Nat)
    (timestamp : String) (uploadFolder : String) (nextDocId : Nat)
    (nextEventId : Nat) (now : PyDateTime) (case_id : Nat)
    (req : UploadRequest) : Nat × DB × List String :=
  match db.cases.find? (fun c => c.id == case_id) with
  | none => (404, db, fs)
  | some _ =>
    if !req.hasFile then (400, db, fs)
    else if req.filename == "" then (400, db, fs)
    else if !allowed_file req.filename then (400, db, fs)
    else
      match req.title with
      | none => (400, db, fs)
      | some title =>
        let filename := secure req.filename
        if filename == "" || !filename.data.contains '.' then (400, db, fs)
        else
          let file_extension := lowerExt filename
          let case_dir := uploadFolder ++ "/case_" ++ toString case_id
          let file_path := case_dir ++ "/" ++ timestamp ++ "_" ++ filename
          let fs2 := file_path :: fs
          let document : Document :=
            { id := nextDocId
              case_id := case_id
              title := title
              document_type := req.document_type.getD "Other"
              file_path := file_path
              file_type := file_extension
              file_size := sizeOf file_path
              extracted_text := some (extract file_path file_extension)
              upload_date := now }
          (201,
            { db with
              documents := db.documents ++ [document]
              timeline_events := db.timeline_events ++
                [auto_create_timeline_event nextEventId now document] },
            fs2)

/-- Embedding of the handler `delete_document`
(`DELETE /api/documents/{id}`, app.py lines 929-980).  When the on-disk
file exists, a failing `os.remove` (modelled by `removable`) returns a 500
and leaves both the database and the file system untouched; otherwise the
row is deleted.  The ORM-level delete of the `Document` row cascades to the
`TimelineEvent` rows that reference it, because the relationship
`Document.timeline_events` is declared `cascade='all, delete-orphan'`
(app.py line 111): SQLAlchemy issues deletes for these child rows before
the parent row is removed, so the column-level `ondelete='SET NULL'` of
`timeline_events.document_id` (app.py line 125) never takes effect. -/
def delete_document (db : DB) (fs : List String) (removable : String → Bool)
    (document_id : Nat) : Nat × DB × List String :=
  match db.documents.find? (fun d => d.id == document_id) with
  | none => (404, db, fs)
  | some document =>
    let fp := document.file_path
    if fs.contains fp then
      if removable fp then
        (200,
          { db with
            documents := db.documents.filter (fun d => !(d.id == document_id))
            timeline_events := db.timeline_events.filter
              (fun e => !(e.document_id == some document_id)) },
          fs.filter (fun p => !(p == fp)))
      else (500, db, fs)
    else
      (200,
        { db with
          documents := db.documents.filter (fun d => !(d.id == document_id))
          timeline_events := db.timeline_events.filter
            (fun e => !(e.document_id == some document_id)) },
        fs)

/-- JSON body of a timeline-event create request: each field may be
absent. -/
structure TimelineInput where
  event_date : Option String
  event_type : Option String
  description : Option String
  significance : Option String
  relevance_to_appeal : Option String
  document_id : Option Nat
  deriving DecidableEq, Repr

/-- Embedding of the handler `create_timeline_event`
(`POST /api/cases/{id}/timeline`, app.py lines 987-1053).  Required fields
are checked in source order (`event_date`, `event_type`, `description`);
a `parse_datetime` failure returns status 400 with the raised message as
the `error` value of the JSON body.  The result is the status paired with
the `error` value (`none` on success) and the database after the
request. -/
def create_timeline_event (fromiso : String → Option PyDateTime)
    (strp : String → String → Option PyDateTime) (db : DB)
    (nextEventId : Nat) (now : PyDateTime) (case_id : Nat)
    (input : Option TimelineInput) : (Nat × Option String) × DB :=
  match db.cases.find? (fun c => c.id == case_id) with
  | none => ((404, some "Case not found"), db)
  | some _ =>
    match input with
    | none => ((400, some "No input data provided"), db)
    | some data =>
      match data.event_date with
      | none => ((400, some "Missing required field: event_date"), db)
      | some ds =>
        match data.event_type with
        | none => ((400, some "Missing required field: event_type"), db)
        | some et =>
          match data.description with
          | none => ((400, some "Missing required field: description"), db)
          | some desc =>
            match parse_datetime fromiso strp ds with
            | .error msg => ((400, some msg), db)
            | .ok d =>
              let event : TimelineEvent :=
                { id := nextEventId
                  case_id := case_id
                  document_id := data.document_id
                  event_date := d
                  event_type := et
                  description := desc
                  significance := data.significance.getD "Medium"
                  relevance_to_appeal := data.relevance_to_appeal
                  created_at := now }
              ((201, none), { db with timeline_events := db.timeline_events ++ [event] })

/-- JSON body of a timeline-event update request: each updatable field may
be absent (the update handler does not touch `document_id`). -/
structure TimelineUpdateInput where
  event_date : Option String
  event_type : Option String
  description : Option String
  significance : Option String
  relevance_to_appeal : Option String
  deriving DecidableEq, Repr

/-- Embedding of the handler `update_timeline_event`
(`PUT /api/timeline/{id}`, app.py lines 1114-1164).  When `event_date` is
present it is parsed first; a `parse_datetime` failure returns 400 with the
raised message before any field of the row is modified (the second return
on app.py line 1141 is unreachable).  Otherwise the present fields
overwrite the row and the handler returns 200. -/
def update_timeline_event (fromiso : String → Option PyDateTime)
    (strp : String → String → Option PyDateTime) (db : DB) (event_id : Nat)
    (input : Option TimelineUpdateInput) : (Nat × Option String) × DB :=
  match db.timeline_events.find? (fun e => e.id == event_id) with
  | none => ((404, some "Timeline event not found"), db)
  | some event =>
    match input with
    | none => ((400, some "No input data provided"), db)
    | some data =>
      let parsed : Except String (Option PyDateTime) :=
        match data.event_date with
        | none => .ok none
        | some ds =>
          match parse_datetime fromiso strp ds with
          | .error msg => .error msg
          | .ok d => .ok (some d)
      match parsed with
      | .error msg => ((400, some msg), db)
      | .ok newDate =>
        let updated : TimelineEvent :=
          { event with
            event_date := newDate.getD event.event_date
            event_type := data.event_type.getD event.event_type
            description := data.description.getD event.description
            significance := data.significance.getD event.significance
            relevance_to_appeal :=
              (match data.relevance_to_appeal with
               | none => event.relevance_to_appeal
               | some r => some r) }
        let newEvents := db.timeline_events.map
          (fun e => if e.id == event_id then updated else e)
        ((200, none), { db with timeline_events := newEvents })

lemma filter_isEmpty_eq_false {α : Type} (p : α → Bool) (l : List α) :
    ((l.filter p).isEmpty = false) ↔ ∃ a ∈ l, p a := by
  simp [List.isEmpty_iff, List.filter_eq_nil_iff]

/-- C1: for every non-empty list of analyses of a case, report generation
selects the recommendations paragraph by strength tier: some analysis
assessed `Strong` forces the strong-grounds paragraph no matter how many
weaker analyses coexist; otherwise some analysis assessed `Medium` forces
the medium paragraph; otherwise the default weak-grounds paragraph is
emitted. -/
theorem recommendations_tier_selection (analyses : List LegalAnalysis)
    (hne : analyses ≠ []) :
    ((∃ a ∈ analyses, a.strength_assessment = "Strong") →
      recommendations analyses =
        strongRecText ((analyses.filter (fun a => a.strength_assessment == "Strong")).length)) ∧
    ((¬ ∃ a ∈ analyses, a.strength_assessment = "Strong") →
      (∃ a ∈ analyses, a.strength_assessment = "Medium") →
      recommendations analyses =
        mediumRecText ((analyses.filter (fun a => a.strength_assessment == "Medium")).length)) ∧
    ((¬ ∃ a ∈ analyses, a.strength_assessment = "Strong") →
      (¬ ∃ a ∈ analyses, a.strength_assessment = "Medium") →
      recommendations analyses = weakRecText) := by
  refine ⟨fun hs => ?_, fun hns hm => ?_, fun hns hnm => ?_⟩
  · have h1 : ((analyses.filter (fun a => a.strength_assessment == "Strong")).isEmpty = false) := by
      rw [filter_isEmpty_eq_false]; simpa using hs
    simp [recommendations, h1]
  · have h1 : ((analyses.filter (fun a => a.strength_assessment == "Strong")).isEmpty = true) := by
      simp only [List.isEmpty_iff, List.filter_eq_nil_iff]
      simpa using hns
    have h2 : ((analyses.filter (fun a => a.strength_assessment == "Medium")).isEmpty = false) := by
      rw [filter_isEmpty_eq_false]; simpa using hm
    simp [recommendations, h1, h2]
  · have h1 : ((analyses.filter (fun a => a.strength_assessment == "Strong")).isEmpty = true) := by
      simp only [List.isEmpty_iff, List.filter_eq_nil_iff]
      simpa using hns
    have h2 : ((analyses.filter (fun a => a.strength_assessment == "Medium")).isEmpty = true) := by
      simp only [List.isEmpty_iff, List.filter_eq_nil_iff]
      simpa using hnm
    simp [recommendations, h1, h2]

/-- Fixed timestamp used by the concrete instantiations below. -/
def dt0 : PyDateTime :=
  { year := 2024, month := 1, day := 1, hour := 0, minute := 0, second := 0,
    microsecond := 0, tzoffsetMinutes := none }

/-- Concrete case row used by the instantiations below. -/
def case1 : Case :=
  { id := 1, case_number := "2024/001", defendant_name := "John Smith",
    offense_type := "Murder", court := "NSW Supreme Court", status := "Open",
    created_at := dt0, updated_at := dt0 }

/-- Concrete document row of `case1` used by the instantiations below. -/
def doc1 : Document :=
  { id := 1, case_id := 1, title := "Trial Brief", document_type := "Other",
    file_path := "uploads/case_1/20240101_000000_brief.txt", file_type := "txt",
    file_size := 10, extracted_text := some "text", upload_date := dt0 }

/-- Concrete timeline event referencing `doc1`. -/
def ev1 : TimelineEvent :=
  { id := 1, case_id := 1, document_id := some 1, event_date := dt0,
    event_type := "Document Upload", description := "upload", significance := "Medium",
    relevance_to_appeal := none, created_at := dt0 }

/-- Concrete analysis row assessed Strong. -/
def aStrong : LegalAnalysis :=
  { id := 1, case_id := 1, ground_of_merit := "Fresh Evidence",
    legal_basis := "New evidence", strength_assessment := "Strong",
    nsw_law_references := none, federal_law_references := none,
    supporting_evidence := none, analysis_summary := "Summary",
    created_at := dt0, updated_at := dt0 }

/-- Database holding `case1`, `doc1` and `ev1`. -/
def db8 : DB :=
  { cases := [case1], documents := [doc1], timeline_events := [ev1],
    legal_analyses := [], barrister_reports := [] }

/-- Database holding only `case1`. -/
def db9 : DB :=
  { cases := [case1], documents := [], timeline_events := [],
    legal_analyses := [], barrister_reports := [] }

/-- Witness for C1: the tier-selection theorem applied to the one-element
list holding a Strong analysis. -/
theorem recommendations_tier_selection_witness :
    ([aStrong] ≠ []) ∧
    (((∃ a ∈ [aStrong], a.strength_assessment = "Strong") →
      recommendations [aStrong] =
        strongRecText (([aStrong].filter (fun a => a.strength_assessment == "Strong")).length)) ∧
    ((¬ ∃ a ∈ [aStrong], a.strength_assessment = "Strong") →
      (∃ a ∈ [aStrong], a.strength_assessment = "Medium") →
      recommendations [aStrong] =
        mediumRecText (([aStrong].filter (fun a => a.strength_assessment == "Medium")).length)) ∧
    ((¬ ∃ a ∈ [aStrong], a.strength_assessment = "Strong") →
      (¬ ∃ a ∈ [aStrong], a.strength_assessment = "Medium") →
      recommendations [aStrong] = weakRecText)) :=
  ⟨by decide, recommendations_tier_selection [aStrong] (by decide)⟩

/-- C2: report generation on a case with zero associated analyses returns
HTTP 400 and leaves the database unchanged, in particular it creates no
BarristerReport row. -/
theorem create_barrister_report_requires_analyses
    (db : DB) (nid : Nat) (nowStr : String) (now : PyDateTime) (case_id : Nat)
    (c : Case) (hc : db.cases.find? (fun x => x.id == case_id) = some c)
    (hempty : db.legal_analyses.filter (fun a => a.case_id == case_id) = []) :
    create_barrister_report db nid nowStr now case_id = (400, db) := by
  simp [create_barrister_report, hc, hempty]

/-- Witness for C2: the theorem applied to a database holding one case and
no analyses. -/
theorem create_barrister_report_requires_analyses_witness :
    (db9.cases.find? (fun x => x.id == 1) = some case1) ∧
    (db9.legal_analyses.filter (fun a => a.case_id == 1) = []) ∧
    create_barrister_report db9 7 "January 01, 2024" dt0 1 = (400, db9) :=
  ⟨by decide, by decide,
    create_barrister_report_requires_analyses db9 7 "January 01, 2024" dt0 1 case1
      (by decide) (by decide)⟩

/-- C3: on an existing case with zero prior analyses, the analyze endpoint
returns 201 and the case ends up with exactly three analysis rows whose
text fields are the fixed placeholder contents (no dependence on the case
documents) and whose strengths are Strong, Medium, Medium. -/
theorem analyze_case_creates_three_fixed_analyses
    (db : DB) (nid : Nat) (now : PyDateTime) (case_id : Nat) (c : Case)
    (hc : db.cases.find? (fun x => x.id == case_id) = some c)
    (hprior : db.legal_analyses.filter (fun a => a.case_id == case_id) = []) :
    (analyze_case db nid now case_id).1 = 201 ∧
    (analyze_case db nid now case_id).2.legal_analyses.filter
        (fun a => a.case_id == case_id) =
      [ { id := nid
          case_id := case_id
          ground_of_merit := "Error in Law - Judicial Misdirection"
          legal_basis := "The trial judge misdirected the jury on a material element of the offense, leading to a miscarriage of justice."
          strength_assessment := "Strong"
          nsw_law_references := some "Criminal Appeal Act 1912 (NSW) s 6(1); Crimes (Appeal and Review) Act 2001 (NSW) s 53"
          federal_law_references := some "None applicable"
          supporting_evidence := some "Trial transcript pages 45-48 showing erroneous jury directions"
          analysis_summary := "Strong ground based on clear judicial error in directing the jury on the element of intent. NSW Court of Criminal Appeal has consistently held that such misdirections constitute a material irregularity."
          created_at := now
          updated_at := now },
        { id := nid + 1
          case_id := case_id
          ground_of_merit := "Fresh Evidence"
          legal_basis := "New evidence has come to light that was not available at trial and could reasonably affect the outcome."
          strength_assessment := "Medium"
          nsw_law_references := some "Criminal Appeal Act 1912 (NSW) s 12; Crimes (Appeal and Review) Act 2001 (NSW) s 54"
          federal_law_references := some "Evidence Act 1995 (Cth) s 97, s 101"
          supporting_evidence := some "Witness statement dated after trial conclusion; forensic analysis report"
          analysis_summary := "Medium strength ground. The fresh evidence meets the threshold of credibility but requires demonstration that it could not have been discovered with reasonable diligence at trial."
          created_at := now
          updated_at := now },
        { id := nid + 2
          case_id := case_id
          ground_of_merit := "Unreasonable Verdict"
          legal_basis := "The verdict is unreasonable or cannot be supported having regard to the evidence presented at trial."
          strength_assessment := "Medium"
          nsw_law_references := some "Criminal Appeal Act 1912 (NSW) s 6(1); Crimes (Appeal and Review) Act 2001 (NSW) s 53(1)(a)"
          federal_law_references := some "None applicable"
          supporting_evidence := some "Contradictory witness testimony; lack of corroborating evidence"
          analysis_summary := "Medium strength ground. Requires detailed analysis of the trial record to demonstrate that no reasonable jury, properly instructed, could have reached the guilty verdict on the evidence presented."
          created_at := now
          updated_at := now } ] := by
  have hcid : c.id = case_id := by
    have h := List.find?_some hc
    simpa using h
  subst hcid
  refine ⟨?_, ?_⟩
  · simp [analyze_case, hc, analyze_grounds_of_merit, sample_grounds]
  · simp [analyze_case, hc, analyze_grounds_of_merit, sample_grounds,
      List.filter_append, hprior, List.enum, List.enumFrom]

/-- Witness for C3: the theorem applied to a one-case database with no
prior analyses. -/
theorem analyze_case_creates_three_fixed_analyses_witness :
    (db9.cases.find? (fun x => x.id == 1) = some case1) ∧
    (db9.legal_analyses.filter (fun a => a.case_id == 1) = []) ∧
    ((analyze_case db9 1 dt0 1).1 = 201 ∧
     (analyze_case db9 1 dt0 1).2.legal_analyses.filter
        (fun a => a.case_id == 1) =
      [ { id := 1
          case_id := 1
          ground_of_merit := "Error in Law - Judicial Misdirection"
          legal_basis := "The trial judge misdirected the jury on a material element of the offense, leading to a miscarriage of justice."
          strength_assessment := "Strong"
          nsw_law_references := some "Criminal Appeal Act 1912 (NSW) s 6(1); Crimes (Appeal and Review) Act 2001 (NSW) s 53"
          federal_law_references := some "None applicable"
          supporting_evidence := some "Trial transcript pages 45-48 showing erroneous jury directions"
          analysis_summary := "Strong ground based on clear judicial error in directing the jury on the element of intent. NSW Court of Criminal Appeal has consistently held that such misdirections constitute a material irregularity."
          created_at := dt0
          updated_at := dt0 },
        { id := 1 + 1
          case_id := 1
          ground_of_merit := "Fresh Evidence"
          legal_basis := "New evidence has come to light that was not available at trial and could reasonably affect the outcome."
          strength_assessment := "Medium"
          nsw_law_references := some "Criminal Appeal Act 1912 (NSW) s 12; Crimes (Appeal and Review) Act 2001 (NSW) s 54"
          federal_law_references := some "Evidence Act 1995 (Cth) s 97, s 101"
          supporting_evidence := some "Witness statement dated after trial conclusion; forensic analysis report"
          analysis_summary := "Medium strength ground. The fresh evidence meets the threshold of credibility but requires demonstration that it could not have been discovered with reasonable diligence at trial."
          created_at := dt0
          updated_at := dt0 },
        { id := 1 + 2
          case_id := 1
          ground_of_merit := "Unreasonable Verdict"
          legal_basis := "The verdict is unreasonable or cannot be supported having regard to the evidence presented at trial."
          strength_assessment := "Medium"
          nsw_law_references := some "Criminal Appeal Act 1912 (NSW) s 6(1); Crimes (Appeal and Review) Act 2001 (NSW) s 53(1)(a)"
          federal_law_references := some "None applicable"
          supporting_evidence := some "Contradictory witness testimony; lack of corroborating evidence"
          analysis_summary := "Medium strength ground. Requires detailed analysis of the trial record to demonstrate that no reasonable jury, properly instructed, could have reached the guilty verdict on the evidence presented."
          created_at := dt0
          updated_at := dt0 } ]) :=
  ⟨by decide, by decide,
    analyze_case_creates_three_fixed_analyses db9 1 dt0 1 case1 (by decide) (by decide)⟩

/-- C4: a create-case request whose case_number matches an existing case
returns HTTP 409 and leaves the database exactly as it was: no row is
inserted and the existing case is unmodified. -/
theorem create_case_duplicate_conflict
    (db : DB) (nid : Nat) (now : PyDateTime) (input : Option CaseInput)
    (data : CaseInput) (cn dn : String)
    (hin : input = some data) (hcn : data.case_number = some cn)
    (hdn : data.defendant_name = some dn)
    (hdup : ∃ c ∈ db.cases, c.case_number = cn) :
    create_case db nid now input = (409, db) := by
  subst hin
  have hfound : (db.cases.find? (fun c => c.case_number == cn)).isSome := by
    rw [List.find?_isSome]
    obtain ⟨c, hcmem, hceq⟩ := hdup
    exact ⟨c, hcmem, by simp [hceq]⟩
  simp [create_case, hcn, hdn, hfound]

/-- Witness for C4: the theorem applied to a request reusing the
case_number of `case1`. -/
theorem create_case_duplicate_conflict_witness :
    (some (CaseInput.mk (some "2024/001") (some "Jane Doe") none none none) =
      some (CaseInput.mk (some "2024/001") (some "Jane Doe") none none none)) ∧
    ((CaseInput.mk (some "2024/001") (some "Jane Doe") none none none).case_number =
      some "2024/001") ∧
    ((CaseInput.mk (some "2024/001") (some "Jane Doe") none none none).defendant_name =
      some "Jane Doe") ∧
    (∃ c ∈ db9.cases, c.case_number = "2024/001") ∧
    create_case db9 2 dt0
      (some (CaseInput.mk (some "2024/001") (some "Jane Doe") none none none)) =
      (409, db9) :=
  ⟨rfl, rfl, rfl, by decide,
    create_case_duplicate_conflict db9 2 dt0
      (some (CaseInput.mk (some "2024/001") (some "Jane Doe") none none none))
      (CaseInput.mk (some "2024/001") (some "Jane Doe") none none none)
      "2024/001" "Jane Doe" rfl rfl rfl (by decide)⟩

/-- C5: deleting an existing case returns 200 and removes the case together
with all of its documents, timeline events, legal analyses and barrister
reports from the database; every on-disk file of its documents that still
remains afterwards is one the file system refused to remove (removal was
attempted, and its failure did not prevent the database deletion). -/
theorem delete_case_cascades
    (db : DB) (fs : List String) (removable : String → Bool) (case_id : Nat)
    (c : Case) (hc : db.cases.find? (fun x => x.id == case_id) = some c) :
    (delete_case db fs removable case_id).1 = 200 ∧
    (∀ x ∈ (delete_case db fs removable case_id).2.1.cases, x.id ≠ case_id) ∧
    (∀ d ∈ (delete_case db fs removable case_id).2.1.documents, d.case_id ≠ case_id) ∧
    (∀ e ∈ (delete_case db fs removable case_id).2.1.timeline_events, e.case_id ≠ case_id) ∧
    (∀ a ∈ (delete_case db fs removable case_id).2.1.legal_analyses, a.case_id ≠ case_id) ∧
    (∀ r ∈ (delete_case db fs removable case_id).2.1.barrister_reports, r.case_id ≠ case_id) ∧
    (∀ p ∈ (delete_case db fs removable case_id).2.2, ∀ d ∈ db.documents,
      d.case_id = case_id → d.file_path = p → removable p = false) := by
  refine ⟨by simp [delete_case, hc], ?_, ?_, ?_, ?_, ?_, ?_⟩
  · intro x hx
    simp [delete_case, hc] at hx
    exact hx.2
  · intro d hd
    simp [delete_case, hc] at hd
    exact hd.2
  · intro e he
    simp [delete_case, hc] at he
    exact he.2
  · intro a ha
    simp [delete_case, hc] at ha
    exact ha.2
  · intro r hr
    simp [delete_case, hc] at hr
    exact hr.2
  · intro p hp d hd hdc hdp
    simp [delete_case, hc] at hp
    rcases hp.2 with hnone | hrem
    · exact absurd hdp (hnone d hd hdc)
    · exact hrem

/-- Witness for C5: the theorem applied to a database holding `case1` with
one document, one timeline event, and a file system refusing removal. -/
theorem delete_case_cascades_witness :
    (db8.cases.find? (fun x => x.id == 1) = some case1) ∧
    ((delete_case db8 ["uploads/case_1/20240101_000000_brief.txt"] (fun _ => false) 1).1 = 200 ∧
    (∀ x ∈ (delete_case db8 ["uploads/case_1/20240101_000000_brief.txt"] (fun _ => false) 1).2.1.cases, x.id ≠ 1) ∧
    (∀ d ∈ (delete_case db8 ["uploads/case_1/20240101_000000_brief.txt"] (fun _ => false) 1).2.1.documents, d.case_id ≠ 1) ∧
    (∀ e ∈ (delete_case db8 ["uploads/case_1/20240101_000000_brief.txt"] (fun _ => false) 1).2.1.timeline_events, e.case_id ≠ 1) ∧
    (∀ a ∈ (delete_case db8 ["uploads/case_1/20240101_000000_brief.txt"] (fun _ => false) 1).2.1.legal_analyses, a.case_id ≠ 1) ∧
    (∀ r ∈ (delete_case db8 ["uploads/case_1/20240101_000000_brief.txt"] (fun _ => false) 1).2.1.barrister_reports, r.case_id ≠ 1) ∧
    (∀ p ∈ (delete_case db8 ["uploads/case_1/20240101_000000_brief.txt"] (fun _ => false) 1).2.2, ∀ d ∈ db8.documents,
      d.case_id = 1 → d.file_path = p → (fun _ => false : String → Bool) p = false)) :=
  ⟨by decide,
    delete_case_cascades db8 ["uploads/case_1/20240101_000000_brief.txt"]
      (fun _ => false) 1 case1 (by decide)⟩

/-- C6: a document-upload request on an existing case that carries a file
whose filename has a disallowed extension returns HTTP 400 with the
database and the file system unchanged: the rejection happens before any
file is written to disk. -/
theorem upload_document_rejects_disallowed_extension
    (db : DB) (fs : List String) (secure : String → String)
    (extract : String → String → String) (sizeOf : String → Nat)
    (timestamp uploadFolder : String) (nextDocId nextEventId : Nat)
    (now : PyDateTime) (case_id : Nat) (req : UploadRequest) (c : Case)
    (hc : db.cases.find? (fun x => x.id == case_id) = some c)
    (hfile : req.hasFile = true) (hname : req.filename ≠ "")
    (hext : allowed_file req.filename = false) :
    upload_document db fs secure extract sizeOf timestamp uploadFolder
      nextDocId nextEventId now case_id req = (400, db, fs) := by
  simp [upload_document, hc, hfile, hname, hext]

/-- Witness for C6: the theorem applied to an upload of `malware.exe`. -/
theorem upload_document_rejects_disallowed_extension_witness :
    (db9.cases.find? (fun x => x.id == 1) = some case1) ∧
    ((UploadRequest.mk true "malware.exe" (some "Payload") none).hasFile = true) ∧
    ((UploadRequest.mk true "malware.exe" (some "Payload") none).filename ≠ "") ∧
    (allowed_file (UploadRequest.mk true "malware.exe" (some "Payload") none).filename = false) ∧
    upload_document db9 [] (fun s => s) (fun _ _ => "") (fun _ => 0)
      "20240101_000000" "uploads" 1 1 dt0 1
      (UploadRequest.mk true "malware.exe" (some "Payload") none) = (400, db9, []) :=
  ⟨by decide, rfl, by decide, by decide,
    upload_document_rejects_disallowed_extension db9 [] (fun s => s) (fun _ _ => "")
      (fun _ => 0) "20240101_000000" "uploads" 1 1 dt0 1
      (UploadRequest.mk true "malware.exe" (some "Payload") none) case1
      (by decide) rfl (by decide) (by decide)⟩

/-- C7: when the on-disk file of an existing document cannot be removed,
deletion returns an error (500) with the database and the file system
unchanged, so the document row is preserved; the row is deleted (status
200) exactly when the file was removed or was absent from disk. -/
theorem delete_document_error_preserves_record
    (db : DB) (fs : List String) (removable : String → Bool)
    (document_id : Nat) (d : Document)
    (hd : db.documents.find? (fun x => x.id == document_id) = some d) :
    (fs.contains d.file_path = true → removable d.file_path = false →
      delete_document db fs removable document_id = (500, db, fs)) ∧
    ((fs.contains d.file_path = false ∨ removable d.file_path = true) →
      (delete_document db fs removable document_id).1 = 200 ∧
      ∀ x ∈ (delete_document db fs removable document_id).2.1.documents,
        x.id ≠ document_id) := by
  constructor
  · intro hin hrm
    have hmem : d.file_path ∈ fs := by simpa using hin
    simp [delete_document, hd, hmem, hrm]
  · intro hok
    by_cases hmem : d.file_path ∈ fs
    · have hrm : removable d.file_path = true := by
        rcases hok with hout | hrm
        · exact absurd hmem (by simpa using hout)
        · exact hrm
      refine ⟨by simp [delete_document, hd, hmem, hrm], ?_⟩
      intro x hx
      simp [delete_document, hd, hmem, hrm] at hx
      exact hx.2
    · refine ⟨by simp [delete_document, hd, hmem], ?_⟩
      intro x hx
      simp [delete_document, hd, hmem] at hx
      exact hx.2

/-- Witness for C7: the theorem applied to `db8` with the document file on
disk and a file system refusing removal. -/
theorem delete_document_error_preserves_record_witness :
    (db8.documents.find? (fun x => x.id == 1) = some doc1) ∧
    ((["uploads/case_1/20240101_000000_brief.txt"].contains doc1.file_path = true →
      (fun _ => false : String → Bool) doc1.file_path = false →
      delete_document db8 ["uploads/case_1/20240101_000000_brief.txt"] (fun _ => false) 1 =
        (500, db8, ["uploads/case_1/20240101_000000_brief.txt"])) ∧
    ((["uploads/case_1/20240101_000000_brief.txt"].contains doc1.file_path = false ∨
      (fun _ => false : String → Bool) doc1.file_path = true) →
      (delete_document db8 ["uploads/case_1/20240101_000000_brief.txt"] (fun _ => false) 1).1 = 200 ∧
      ∀ x ∈ (delete_document db8 ["uploads/case_1/20240101_000000_brief.txt"] (fun _ => false) 1).2.1.documents,
        x.id ≠ 1)) :=
  ⟨by decide,
    delete_document_error_preserves_record db8
      ["uploads/case_1/20240101_000000_brief.txt"] (fun _ => false) 1 doc1 (by decide)⟩

/-- C8: concrete evaluation at the failing input for nullify-on-delete — a
database with one case, one document whose file is absent from disk, and
one timeline event referencing the document.  Deleting the document also
deletes the referencing timeline event (the ORM cascade declared on
`Document.timeline_events`, app.py line 111), so no event survives with a
nullified reference, contrary to the `ondelete='SET NULL'` declaration of
the `timeline_events.document_id` foreign key (app.py line 125). -/
theorem delete_document_deletes_referencing_event :
    delete_document db8 [] (fun _ => true) 1 =
      (200,
        { cases := [case1], documents := [], timeline_events := [],
          legal_analyses := [], barrister_reports := [] },
        []) := by decide

lemma strContains_append (a b c : String) : strContains (a ++ b ++ c) b = true := by
  simp only [strContains, List.any_eq_true, List.mem_range]
  refine ⟨a.data.length, ?_, ?_⟩
  · simp [String.data_append]
    omega
  · have h1 : (a ++ b ++ c).data = a.data ++ (b.data ++ c.data) := by
      simp [String.data_append]
    rw [h1, List.drop_left, List.take_left]
    exact beq_self_eq_true b.data

lemma endsWithZ_append_Z (base : String) : endsWithZ (base ++ "Z") = true := by
  show ((base ++ "Z").data.getLast? == some 'Z') = true
  rw [String.data_append]
  show ((base.data ++ ['Z']).getLast? == some 'Z') = true
  rw [List.getLast?_concat]
  rfl

lemma stripLast_append_Z (base : String) : stripLast (base ++ "Z") = base := by
  show String.mk ((base ++ "Z").data.dropLast) = base
  rw [String.data_append]
  show String.mk ((base.data ++ ['Z']).dropLast) = base
  rw [List.dropLast_concat]

lemma endsWithZ_append_offset (base : String) : endsWithZ (base ++ "+00:00") = false := by
  show ((base ++ "+00:00").data.getLast? == some 'Z') = false
  rw [String.data_append]
  show ((base.data ++ ['+', '0', '0', ':', '0', '0']).getLast? == some 'Z') = false
  rw [List.getLast?_append_of_ne_nil _ (by simp)]
  rfl

lemma zNormalize_append_Z (base : String) :
    zNormalize (base ++ "Z") = base ++ "+00:00" := by
  rw [zNormalize, endsWithZ_append_Z, stripLast_append_Z]
  rfl

lemma zNormalize_append_offset (base : String) :
    zNormalize (base ++ "+00:00") = base ++ "+00:00" := by
  rw [zNormalize, endsWithZ_append_offset]
  rfl

lemma append_Z_ne_empty (base : String) : ((base ++ "Z") == "") = false := by
  rw [beq_eq_false_iff_ne]
  intro h
  have hd : (base ++ "Z").data = "".data := congrArg String.data h
  rw [String.data_append] at hd
  have hd2 : base.data ++ ['Z'] = ([] : List Char) := hd
  simp at hd2

lemma append_offset_ne_empty (base : String) : ((base ++ "+00:00") == "") = false := by
  rw [beq_eq_false_iff_ne]
  intro h
  have hd : (base ++ "+00:00").data = "".data := congrArg String.data h
  rw [String.data_append] at hd
  have hd2 : base.data ++ ['+', '0', '0', ':', '0', '0'] = ([] : List Char) := hd
  simp at hd2

lemma parse_datetime_z_normalize (fromiso : String → Option PyDateTime)
    (strp : String → String → Option PyDateTime) (base : String) :
    parse_datetime fromiso strp (base ++ "Z") =
      parse_datetime fromiso strp (base ++ "+00:00") := by
  simp only [parse_datetime, append_Z_ne_empty, append_offset_ne_empty,
    zNormalize_append_Z, zNormalize_append_offset, Bool.false_eq_true, if_false]

/-- C10: whenever the trailing-Z variant of a date string parses
successfully, the variant carrying an explicit `+00:00` offset parses to
the very same value (the same instant): `parse_datetime` rewrites the
trailing `Z` to `+00:00` before parsing, so both inputs follow identical
paths. -/
theorem parse_datetime_z_equiv_offset (fromiso : String → Option PyDateTime)
    (strp : String → String → Option PyDateTime) (base : String) (d : PyDateTime)
    (h : parse_datetime fromiso strp (base ++ "Z") = .ok d) :
    parse_datetime fromiso strp (base ++ "+00:00") = .ok d := by
  rw [← parse_datetime_z_normalize]
  exact h

/-- Parsed value of the witness input for C10. -/
def dtZ : PyDateTime :=
  { year := 2024, month := 1, day := 1, hour := 12, minute := 0, second := 0,
    microsecond := 0, tzoffsetMinutes := some 0 }

/-- Model of `datetime.fromisoformat` at the C10 witness inputs: the
library accepts the offset-carrying string (returning an aware datetime)
and is never consulted on any other string by that witness. -/
def fromiso10 : String → Option PyDateTime :=
  fun s => if s == "2024-01-01T12:00:00+00:00" then some dtZ else none

/-- Witness for C10: the theorem applied to a concrete timestamp. -/
theorem parse_datetime_z_equiv_offset_witness :
    (parse_datetime fromiso10 (fun _ _ => none) ("2024-01-01T12:00:00" ++ "Z") = .ok dtZ) ∧
    (parse_datetime fromiso10 (fun _ _ => none) ("2024-01-01T12:00:00" ++ "+00:00") = .ok dtZ) :=
  ⟨by rfl,
    parse_datetime_z_equiv_offset fromiso10 (fun _ _ => none) "2024-01-01T12:00:00" dtZ (by rfl)⟩

/-- C9 counterexample: a create request for the existing case with
event_date `not-a-dateZ` (on which the library parsers all fail, as
Python's `fromisoformat` and all three `strptime` fallbacks do on the
rewritten string `not-a-date+00:00`) returns a 400 whose error message does
not contain the offending string as it was submitted: the trailing `Z` was
already rewritten to `+00:00` before the message was built. -/
theorem parse_error_echo_counterexample :
    ((create_timeline_event (fun _ => none) (fun _ _ => none) db9 1 dt0 1
        (some (TimelineInput.mk (some "not-a-dateZ") (some "Hearing")
          (some "Hearing held") none none none))).1 =
      (400, some ("Unable to parse date string: not-a-date+00:00. Use ISO 8601 format (e.g., \x272024-01-01T12:00:00\x27 or \x272024-01-01T12:00:00Z\x27)"))) ∧
    strContains
      ("Unable to parse date string: not-a-date+00:00. Use ISO 8601 format (e.g., \x272024-01-01T12:00:00\x27 or \x272024-01-01T12:00:00Z\x27)")
      "not-a-dateZ" = false :=
  ⟨by decide, by decide⟩

/-- C9 (amended): a timeline-event create or update request whose present,
non-empty event_date string fails to parse returns HTTP 400 with the parse
error as the message and, for the update, leaves the database unchanged;
the message echoes back the offending string after normalization of a
trailing `Z` to `+00:00`, and echoes it exactly as submitted whenever it
does not end in `Z`. -/
theorem parse_error_echoes_normalized_string
    (fromiso : String → Option PyDateTime)
    (strp : String → String → Option PyDateTime) (db : DB) (nid : Nat)
    (now : PyDateTime) (case_id event_id : Nat) (c : Case) (ev : TimelineEvent)
    (input : Option TimelineInput) (data : TimelineInput)
    (udata : TimelineUpdateInput) (ds et desc m : String)
    (hc : db.cases.find? (fun x => x.id == case_id) = some c)
    (hin : input = some data) (hds : data.event_date = some ds)
    (het : data.event_type = some et) (hdesc : data.description = some desc)
    (hev : db.timeline_events.find? (fun e => e.id == event_id) = some ev)
    (huds : udata.event_date = some ds)
    (hne : ds ≠ "")
    (hfail : parse_datetime fromiso strp ds = .error m) :
    (create_timeline_event fromiso strp db nid now case_id input).1 = (400, some m) ∧
    update_timeline_event fromiso strp db event_id (some udata) = ((400, some m), db) ∧
    strContains m (zNormalize ds) = true ∧
    (endsWithZ ds = false → strContains m ds = true) := by
  have hds0 : (ds == "") = false := by
    rw [beq_eq_false_iff_ne]; exact hne
  have hmain : m = "Unable to parse date string: " ++ zNormalize ds ++
      ". Use ISO 8601 format (e.g., \x272024-01-01T12:00:00\x27 or \x272024-01-01T12:00:00Z\x27)" := by
    simp only [parse_datetime, hds0, Bool.false_eq_true, if_false] at hfail
    cases h1 : fromiso (zNormalize ds) with
    | some d1 => rw [h1] at hfail; exact absurd hfail (by simp)
    | none =>
      rw [h1] at hfail
      cases h2 : strp "%Y-%m-%dT%H:%M:%S" (zNormalize ds) with
      | some d2 => rw [h2] at hfail; exact absurd hfail (by simp)
      | none =>
        rw [h2] at hfail
        cases h3 : strp "%Y-%m-%d %H:%M:%S" (zNormalize ds) with
        | some d3 => rw [h3] at hfail; exact absurd hfail (by simp)
        | none =>
          rw [h3] at hfail
          cases h4 : strp "%Y-%m-%d" (zNormalize ds) with
          | some d4 => rw [h4] at hfail; exact absurd hfail (by simp)
          | none =>
            rw [h4] at hfail
            injection hfail with hm
            exact hm.symm
  refine ⟨?_, ?_, ?_, ?_⟩
  · subst hin
    simp [create_timeline_event, hc, hds, het, hdesc, hfail]
  · simp [update_timeline_event, hev, huds, hfail]
  · rw [hmain]
    exact strContains_append _ _ _
  · intro hz
    have hid : zNormalize ds = ds := by simp [zNormalize, hz]
    rw [← hid, hmain]
    exact strContains_append _ _ _

/-- Witness for the amended C9 theorem: applied to the date string `badZ`
with library parsers that fail on the rewritten string, as Python's do,
against the database holding `case1` and the timeline event `ev1`, for both
the create and the update endpoint. -/
theorem parse_error_echoes_normalized_string_witness :
    (db8.cases.find? (fun x => x.id == 1) = some case1) ∧
    ((some (TimelineInput.mk (some "badZ") (some "Hearing") (some "Hearing held")
        none none none) : Option TimelineInput) =
      some (TimelineInput.mk (some "badZ") (some "Hearing") (some "Hearing held")
        none none none)) ∧
    (db8.timeline_events.find? (fun e => e.id == 1) = some ev1) ∧
    ("badZ" ≠ "") ∧
    (parse_datetime (fun _ => none) (fun _ _ => none) "badZ" =
      .error "Unable to parse date string: bad+00:00. Use ISO 8601 format (e.g., \x272024-01-01T12:00:00\x27 or \x272024-01-01T12:00:00Z\x27)") ∧
    ((create_timeline_event (fun _ => none) (fun _ _ => none) db8 2 dt0 1
        (some (TimelineInput.mk (some "badZ") (some "Hearing") (some "Hearing held")
          none none none))).1 =
      (400, some "Unable to parse date string: bad+00:00. Use ISO 8601 format (e.g., \x272024-01-01T12:00:00\x27 or \x272024-01-01T12:00:00Z\x27)") ∧
    update_timeline_event (fun _ => none) (fun _ _ => none) db8 1
        (some (TimelineUpdateInput.mk (some "badZ") none none none none)) =
      ((400, some "Unable to parse date string: bad+00:00. Use ISO 8601 format (e.g., \x272024-01-01T12:00:00\x27 or \x272024-01-01T12:00:00Z\x27)"), db8) ∧
    strContains
      "Unable to parse date string: bad+00:00. Use ISO 8601 format (e.g., \x272024-01-01T12:00:00\x27 or \x272024-01-01T12:00:00Z\x27)"
      (zNormalize "badZ") = true ∧
    (endsWithZ "badZ" = false →
      strContains
        "Unable to parse date string: bad+00:00. Use ISO 8601 format (e.g., \x272024-01-01T12:00:00\x27 or \x272024-01-01T12:00:00Z\x27)"
        "badZ" = true)) :=
  ⟨by decide, rfl, by decide, by decide, by rfl,
    parse_error_echoes_normalized_string (fun _ => none) (fun _ _ => none) db8 2 dt0 1 1
      case1 ev1
      (some (TimelineInput.mk (some "badZ") (some "Hearing") (some "Hearing held")
        none none none))
      (TimelineInput.mk (some "badZ") (some "Hearing") (some "Hearing held")
        none none none)
      (TimelineUpdateInput.mk (some "badZ") none none none none)
      "badZ" "Hearing" "Hearing held"
      "Unable to parse date string: bad+00:00. Use ISO 8601 format (e.g., \x272024-01-01T12:00:00\x27 or \x272024-01-01T12:00:00Z\x27)"
      (by decide) rfl rfl rfl rfl (by decide) rfl (by decide) (by rfl)⟩
